import Mathlib

/-!
Verification development for the EndoRisk inference/explainability pipeline
(`app/main.py`).  The definitions below are a shallow embedding of the
submission pipeline: categorical label codecs, the imputation rules that
resolve a partially specified patient form, the risk banding, the confidence
score, the SHAP post-processing, the PDP grid construction, the
similar-case retrieval, and the session-state update performed on form
submission.  Probabilities and clinical measurements are modelled as
rationals; the model / scaler artifacts are abstract function parameters.
-/

/-! ## Categorical label codecs (the `*_INV` dictionaries, `app/main.py` lines 503-512) -/

/-- Labels of the "Grup de Risc Definitiu" select box (`risk_opts`, line 459). -/
inductive RiskLabel
  | riscBaix | riscIntermedi | riscIntermediAlt | riscAlt | avancats
deriving DecidableEq

/-- `RISK_INV` (line 503). -/
def RISK_INV : RiskLabel → ℤ
  | .riscBaix => 1
  | .riscIntermedi => 2
  | .riscIntermediAlt => 3
  | .riscAlt => 4
  | .avancats => 5

/-- Labels of the "Grau Histològic" select box (`grado_opts`, line 471). -/
inductive GradoLabel
  | grauBaix | grauAlt
deriving DecidableEq

/-- `GRADO_INV` (line 504). -/
def GRADO_INV : GradoLabel → ℤ
  | .grauBaix => 1
  | .grauAlt => 2

/-- Labels of the "Infiltració Miometrial" select box (`infil_opts`, line 474). -/
inductive InfilLabel
  | sense | menys50 | mes50 | serosa
deriving DecidableEq

/-- `INFIL_INV` (line 505). -/
def INFIL_INV : InfilLabel → ℤ
  | .sense => 0
  | .menys50 => 1
  | .mes50 => 2
  | .serosa => 3

/-- The two-valued "No"/"Sí" labels (`yesno_opts`, line 480). -/
inductive YesNoLabel
  | no | si
deriving DecidableEq

/-- `LINF_INV`, `QUIR_INV` and `META_INV` (lines 506, 510, 512) are all the
same No/Sí table. -/
def YESNO_INV : YesNoLabel → ℤ
  | .no => 0
  | .si => 1

/-- Labels of the "Estadiatge Pre-quirúrgic" select box (`estadiaje_opts`, line 462). -/
inductive EstadLabel
  | estadiI | estadiII | estadiIIIiIV
deriving DecidableEq

/-- `ESTAD_INV` (line 507). -/
def ESTAD_INV : EstadLabel → ℤ
  | .estadiI => 0
  | .estadiII => 1
  | .estadiIIIiIV => 2

/-- Labels of the "Tractament Sistèmic Realitzat" select box (`sistemico_opts`, line 488). -/
inductive SistLabel
  | noRealitzat | dosiParcial | dosiCompleta
deriving DecidableEq

/-- `SIST_INV` (line 508). -/
def SIST_INV : SistLabel → ℤ
  | .noRealitzat => 0
  | .dosiParcial => 1
  | .dosiCompleta => 2

/-- Labels of the "Estadi FIGO 2023" select box (`figo_opts`, line 477). -/
inductive FigoLabel
  | ia1 | ia2 | ia3 | ib | ic | iia | iib | iic | iiia | iiib | iiic | iva | ivb | ivc
deriving DecidableEq

/-- `FIGO_INV` (line 509). -/
def FIGO_INV : FigoLabel → ℤ
  | .ia1 => 1
  | .ia2 => 2
  | .ia3 => 3
  | .ib => 4
  | .ic => 5
  | .iia => 6
  | .iib => 7
  | .iic => 8
  | .iiia => 9
  | .iiib => 10
  | .iiic => 11
  | .iva => 12
  | .ivb => 13
  | .ivc => 14

/-- Labels of the "Tipus Histològic" select box (`histo_opts`, line 468). -/
inductive HistoLabel
  | hiperplasia | endometrioide | seros | celClares | indiferenciat
  | mixt | escamos | carcinosarcoma | altres
deriving DecidableEq

/-- `HISTO_INV` (line 511). -/
def HISTO_INV : HistoLabel → ℤ
  | .hiperplasia => 1
  | .endometrioide => 2
  | .seros => 3
  | .celClares => 4
  | .indiferenciat => 5
  | .mixt => 6
  | .escamos => 7
  | .carcinosarcoma => 8
  | .altres => 9

/-! ## PatientInput: the session-state form fields -/

/-- The 14 optional form fields held in `st.session_state` (`init_state`,
lines 431-439).  `none` models a field the user left blank (`None`); the
categorical fields can only hold one of the select-box labels, which the
label inductives above enumerate. -/
structure PatientInput where
  edad : Option ℤ
  imc : Option ℚ
  grupo_riesgo : Option RiskLabel
  estadiaje_pre : Option EstadLabel
  histo : Option HistoLabel
  grado : Option GradoLabel
  infiltracion : Option InfilLabel
  figo : Option FigoLabel
  metasta : Option YesNoLabel
  tto_quirurgico : Option YesNoLabel
  tto_sistemico : Option SistLabel
  afect_linf : Option YesNoLabel
  recep_est : Option ℚ
  recep_prog : Option ℚ
deriving DecidableEq

/-- The fields of `input_fields` (lines 518-533) in source order, reduced to
their `is None` flags. -/
def input_fields_none (s : PatientInput) : List Bool :=
  [s.edad.isNone, s.imc.isNone, s.grupo_riesgo.isNone, s.estadiaje_pre.isNone,
   s.histo.isNone, s.grado.isNone, s.infiltracion.isNone, s.figo.isNone,
   s.metasta.isNone, s.tto_quirurgico.isNone, s.tto_sistemico.isNone,
   s.afect_linf.isNone, s.recep_est.isNone, s.recep_prog.isNone]

/-- `n_nan = sum(1 for v in input_fields if v is None)` (line 534). -/
def n_nan (s : PatientInput) : ℕ :=
  (input_fields_none s).count true

/-! ## Imputation (lines 541-605) -/

/-- Python `DICT.get(x, d)` where `x` is either `None` or a key of the
dictionary: the label inductives enumerate exactly the dictionary keys, so a
present label always hits and `None` falls back to the default. -/
def dictGet {α β : Type} (f : α → β) (d : β) : Option α → β
  | none => d
  | some a => f a

/-- Python truthiness fallback `x if x else d` for an optional rational
(used for `imc`, line 583): `None` and `0` are falsy. -/
def truthyQ (d : ℚ) : Option ℚ → ℚ
  | none => d
  | some v => if v = 0 then d else v

/-- Python truthiness fallback `x if x else d` for an optional integer
(used for `edad`, line 595): `None` and `0` are falsy. -/
def truthyZ (d : ℤ) : Option ℤ → ℤ
  | none => d
  | some v => if v = 0 then d else v

/-- `grado = GRADO_INV.get(st.session_state.grado, 1)` (line 543): the grade
is resolved first, with dataset mode 1 as the fallback. -/
def grado_resolved (s : PatientInput) : ℤ :=
  dictGet GRADO_INV 1 s.grado

/-- `MEDIAN_RECEP_EST = {1: 90.0, 2: 70.0}` (line 548). -/
def MEDIAN_RECEP_EST : List (ℤ × ℚ) := [(1, 90.0), (2, 70.0)]

/-- `MEDIAN_RECEP_PROG = {1: 90.0, 2: 25.0}` (line 549). -/
def MEDIAN_RECEP_PROG : List (ℤ × ℚ) := [(1, 90.0), (2, 25.0)]

/-- Lines 552-555: the estrogen receptor value used by the prediction path.
Presence is tested with `is not None`, so a supplied `0.0` is kept. -/
def recep_est_resolved (s : PatientInput) : ℚ :=
  match s.recep_est with
  | some v => v
  | none => (MEDIAN_RECEP_EST.lookup (grado_resolved s)).getD 90.0

/-- Lines 557-560: the progesterone receptor value used by the prediction
path. -/
def recep_prog_resolved (s : PatientInput) : ℚ :=
  match s.recep_prog with
  | some v => v
  | none => (MEDIAN_RECEP_PROG.lookup (grado_resolved s)).getD 90.0

/-- The fully-resolved numeric field map `input_dict` (lines 563-605),
keyed by the dataset column names. -/
structure FeatureMap where
  grupo_de_riesgo_definitivo : ℤ
  afectacion_linf : ℤ
  estadiaje_pre_i : ℤ
  Tratamiento_sistemico_realizad : ℤ
  grado_histologi : ℤ
  infiltracion_mi : ℤ
  imc : ℚ
  FIGO2023 : ℤ
  recep_est_porcent : ℚ
  rece_de_Ppor : ℚ
  edad : ℤ
  tto_1_quirugico : ℤ
  histo_defin : ℤ
  metasta_distan : ℤ
deriving DecidableEq

/-- `input_dict` construction (lines 563-605), field by field with the
fallback constants documented in the source comments. -/
def input_dict (s : PatientInput) : FeatureMap where
  grupo_de_riesgo_definitivo := dictGet RISK_INV 1 s.grupo_riesgo
  afectacion_linf := dictGet YESNO_INV 0 s.afect_linf
  estadiaje_pre_i := dictGet ESTAD_INV 0 s.estadiaje_pre
  Tratamiento_sistemico_realizad := dictGet SIST_INV 0 s.tto_sistemico
  grado_histologi := grado_resolved s
  infiltracion_mi := dictGet INFIL_INV 1 s.infiltracion
  imc := truthyQ 29.4 s.imc
  FIGO2023 := dictGet FIGO_INV 1 s.figo
  recep_est_porcent := recep_est_resolved s
  rece_de_Ppor := recep_prog_resolved s
  edad := truthyZ 65 s.edad
  tto_1_quirugico := dictGet YESNO_INV 1 s.tto_quirurgico
  histo_defin := dictGet HISTO_INV 2 s.histo
  metasta_distan := dictGet YESNO_INV 0 s.metasta

/-! ## Risk banding (lines 666-679 in tab2, lines 127-135 in the PDF report) -/

/-- The three risk tiers of the banding policy. -/
inductive RiskTier
  | low | moderate | high
deriving DecidableEq

/-- Rank used only to express that the banding is monotone in `p`. -/
def tierRank : RiskTier → ℕ
  | .low => 0
  | .moderate => 1
  | .high => 2

/-- The tab-2 risk semaphore (lines 666-679): `prob < 0.30` is Baix,
`prob < 0.60` Moderat, otherwise Alt. -/
def risk_level (p : ℚ) : RiskTier :=
  if p < 0.30 then RiskTier.low
  else if p < 0.60 then RiskTier.moderate
  else RiskTier.high

/-- The `generate_pdf_report` banding (lines 127-135), which re-derives the
tier text from the probability with the same thresholds. -/
def pdf_risk_text (p : ℚ) : String :=
  if p < 0.30 then "BAIX"
  else if p < 0.60 then "MODERAT"
  else "ALT"

/-! ## Confidence (lines 619-632) -/

/-- `decision_distance = abs(prob - 0.5) * 2` (line 624). -/
def decision_distance (p : ℚ) : ℚ :=
  |p - 0.5| * 2

/-- `nan_penalty = n_nan * 0.05` (line 628). -/
def nan_penalty (n : ℕ) : ℚ :=
  (n : ℚ) * 0.05

/-- `confidence = max(0, decision_distance - nan_penalty)` (line 631). -/
def confidence (p : ℚ) (n : ℕ) : ℚ :=
  max 0 (decision_distance p - nan_penalty n)

/-! ## Concrete inputs used by the claims -/

/-- The end-to-end scenario input: age 60, risk group Intermedi, low grade,
every other field blank. -/
def scenarioInput : PatientInput where
  edad := some 60
  imc := none
  grupo_riesgo := some RiskLabel.riscIntermedi
  estadiaje_pre := none
  histo := none
  grado := some GradoLabel.grauBaix
  infiltracion := none
  figo := none
  metasta := none
  tto_quirurgico := none
  tto_sistemico := none
  afect_linf := none
  recep_est := none
  recep_prog := none

/-! ## Claims C1-C4 -/

/-- Claim C1: risk tier is a pure step function of the predicted probability:
for every p in [0,1] the tier is Low when p < 0.30, Moderate when
0.30 <= p < 0.60 and High when p >= 0.60 (both in the tab-2 semaphore and in
the PDF report banding), and the tier is non-decreasing in p. -/
theorem risk_banding_step_monotone (p : ℚ) (h0 : 0 ≤ p) (h1 : p ≤ 1) :
    (p < 0.30 → risk_level p = RiskTier.low ∧ pdf_risk_text p = "BAIX") ∧
    (0.30 ≤ p → p < 0.60 → risk_level p = RiskTier.moderate ∧ pdf_risk_text p = "MODERAT") ∧
    (0.60 ≤ p → risk_level p = RiskTier.high ∧ pdf_risk_text p = "ALT") ∧
    (∀ q : ℚ, p ≤ q → tierRank (risk_level p) ≤ tierRank (risk_level q)) := by
  refine ⟨?_, ?_, ?_, ?_⟩
  · intro h
    simp [risk_level, pdf_risk_text, h]
  · intro h h'
    simp [risk_level, pdf_risk_text, not_lt.mpr h, h']
  · intro h
    have h3 : ¬ p < 0.30 := not_lt.mpr (by linarith)
    simp [risk_level, pdf_risk_text, h3, not_lt.mpr h]
  · intro q hpq
    unfold risk_level
    split_ifs <;> simp [tierRank] <;> linarith

/-- Witness for C1 at the concrete probability 1/2. -/
theorem risk_banding_step_monotone_witness :
    risk_level 0.5 = RiskTier.moderate ∧ pdf_risk_text 0.5 = "MODERAT" :=
  (risk_banding_step_monotone 0.5 (by norm_num) (by norm_num)).2.1
    (by norm_num) (by norm_num)

/-- Claim C2: for every probability p in [0,1] and every n_imputed in 0..14,
the confidence equals max(0, |p - 0.5| * 2 - n * 0.05) and lies in [0,1]. -/
theorem confidence_formula_in_unit_interval (p : ℚ) (n : ℕ)
    (h0 : 0 ≤ p) (h1 : p ≤ 1) (hn : n ≤ 14) :
    confidence p n = max 0 (|p - 0.5| * 2 - (n : ℚ) * 0.05) ∧
    0 ≤ confidence p n ∧ confidence p n ≤ 1 := by
  refine ⟨rfl, le_max_left _ _, ?_⟩
  have habs : |p - 0.5| ≤ 0.5 := by
    rw [abs_le]
    constructor <;> linarith
  have hpen : 0 ≤ (n : ℚ) * 0.05 := by positivity
  unfold confidence decision_distance nan_penalty
  apply max_le (by norm_num)
  linarith

/-- Witness for C2 at p = 0.8, n = 3. -/
theorem confidence_formula_in_unit_interval_witness :
    0 ≤ confidence 0.8 3 ∧ confidence 0.8 3 ≤ 1 :=
  (confidence_formula_in_unit_interval 0.8 3 (by norm_num) (by norm_num)
    (by norm_num)).2

/-- Claim C3: imputation resolves every unset field to its documented fixed
constant (grade first, mode 1; receptors by grade-stratified medians
90/90 for grade 1 and 70/25 for grade 2; the remaining fields by per-field
constants), and every field supplied by the user keeps its supplied value.
The numeric range hypotheses come from the form widget bounds (age 18-120,
BMI 10-60); they matter because `imc` and `edad` fall back on Python
truthiness, so a supplied 0 would be treated as absent. -/
theorem imputation_resolves_fields (s : PatientInput)
    (himc : ∀ b ∈ s.imc, (10 : ℚ) ≤ b ∧ b ≤ 60)
    (hedad : ∀ a ∈ s.edad, (18 : ℤ) ≤ a ∧ a ≤ 120) :
    ((input_dict s).grado_histologi = grado_resolved s ∧
      (s.grado = none → grado_resolved s = 1) ∧
      (∀ g ∈ s.grado, grado_resolved s = GRADO_INV g)) ∧
    (s.recep_est = none → grado_resolved s = 1 →
      (input_dict s).recep_est_porcent = 90.0) ∧
    (s.recep_est = none → grado_resolved s = 2 →
      (input_dict s).recep_est_porcent = 70.0) ∧
    (s.recep_prog = none → grado_resolved s = 1 →
      (input_dict s).rece_de_Ppor = 90.0) ∧
    (s.recep_prog = none → grado_resolved s = 2 →
      (input_dict s).rece_de_Ppor = 25.0) ∧
    (s.grupo_riesgo = none → (input_dict s).grupo_de_riesgo_definitivo = 1) ∧
    (s.estadiaje_pre = none → (input_dict s).estadiaje_pre_i = 0) ∧
    (s.tto_sistemico = none → (input_dict s).Tratamiento_sistemico_realizad = 0) ∧
    (s.infiltracion = none → (input_dict s).infiltracion_mi = 1) ∧
    (s.figo = none → (input_dict s).FIGO2023 = 1) ∧
    (s.tto_quirurgico = none → (input_dict s).tto_1_quirugico = 1) ∧
    (s.histo = none → (input_dict s).histo_defin = 2) ∧
    (s.metasta = none → (input_dict s).metasta_distan = 0) ∧
    (s.afect_linf = none → (input_dict s).afectacion_linf = 0) ∧
    (s.imc = none → (input_dict s).imc = 29.4) ∧
    (s.edad = none → (input_dict s).edad = 65) ∧
    (∀ v ∈ s.recep_est, (input_dict s).recep_est_porcent = v) ∧
    (∀ v ∈ s.recep_prog, (input_dict s).rece_de_Ppor = v) ∧
    (∀ l ∈ s.grupo_riesgo, (input_dict s).grupo_de_riesgo_definitivo = RISK_INV l) ∧
    (∀ l ∈ s.estadiaje_pre, (input_dict s).estadiaje_pre_i = ESTAD_INV l) ∧
    (∀ l ∈ s.tto_sistemico, (input_dict s).Tratamiento_sistemico_realizad = SIST_INV l) ∧
    (∀ l ∈ s.infiltracion, (input_dict s).infiltracion_mi = INFIL_INV l) ∧
    (∀ l ∈ s.figo, (input_dict s).FIGO2023 = FIGO_INV l) ∧
    (∀ l ∈ s.tto_quirurgico, (input_dict s).tto_1_quirugico = YESNO_INV l) ∧
    (∀ l ∈ s.histo, (input_dict s).histo_defin = HISTO_INV l) ∧
    (∀ l ∈ s.metasta, (input_dict s).metasta_distan = YESNO_INV l) ∧
    (∀ l ∈ s.afect_linf, (input_dict s).afectacion_linf = YESNO_INV l) ∧
    (∀ b ∈ s.imc, (input_dict s).imc = b) ∧
    (∀ a ∈ s.edad, (input_dict s).edad = a) := by
  refine ⟨⟨rfl, ?_, ?_⟩, ?_, ?_, ?_, ?_, ?_, ?_, ?_, ?_, ?_, ?_, ?_, ?_, ?_,
    ?_, ?_, ?_, ?_, ?_, ?_, ?_, ?_, ?_, ?_, ?_, ?_, ?_, ?_, ?_⟩
  · intro h
    simp [grado_resolved, dictGet, h]
  · intro g hg
    rw [Option.mem_def] at hg
    simp [grado_resolved, dictGet, hg]
  · intro h hg
    simp [input_dict, recep_est_resolved, h, hg, MEDIAN_RECEP_EST, List.lookup]
  · intro h hg
    simp [input_dict, recep_est_resolved, h, hg, MEDIAN_RECEP_EST, List.lookup]
  · intro h hg
    simp [input_dict, recep_prog_resolved, h, hg, MEDIAN_RECEP_PROG, List.lookup]
  · intro h hg
    simp [input_dict, recep_prog_resolved, h, hg, MEDIAN_RECEP_PROG, List.lookup]
  · intro h
    simp [input_dict, dictGet, h]
  · intro h
    simp [input_dict, dictGet, h]
  · intro h
    simp [input_dict, dictGet, h]
  · intro h
    simp [input_dict, dictGet, h]
  · intro h
    simp [input_dict, dictGet, h]
  · intro h
    simp [input_dict, dictGet, h]
  · intro h
    simp [input_dict, dictGet, h]
  · intro h
    simp [input_dict, dictGet, h]
  · intro h
    simp [input_dict, dictGet, h]
  · intro h
    simp [input_dict, truthyQ, h]
  · intro h
    simp [input_dict, truthyZ, h]
  · intro v hv
    rw [Option.mem_def] at hv
    simp [input_dict, recep_est_resolved, hv]
  · intro v hv
    rw [Option.mem_def] at hv
    simp [input_dict, recep_prog_resolved, hv]
  · intro l hl
    rw [Option.mem_def] at hl
    simp [input_dict, dictGet, hl]
  · intro l hl
    rw [Option.mem_def] at hl
    simp [input_dict, dictGet, hl]
  · intro l hl
    rw [Option.mem_def] at hl
    simp [input_dict, dictGet, hl]
  · intro l hl
    rw [Option.mem_def] at hl
    simp [input_dict, dictGet, hl]
  · intro l hl
    rw [Option.mem_def] at hl
    simp [input_dict, dictGet, hl]
  · intro l hl
    rw [Option.mem_def] at hl
    simp [input_dict, dictGet, hl]
  · intro l hl
    rw [Option.mem_def] at hl
    simp [input_dict, dictGet, hl]
  · intro l hl
    rw [Option.mem_def] at hl
    simp [input_dict, dictGet, hl]
  · intro l hl
    rw [Option.mem_def] at hl
    simp [input_dict, dictGet, hl]
  · intro b hb
    rw [Option.mem_def] at hb
    have h10 := (himc b (Option.mem_def.mpr hb)).1
    have hb0 : ¬ b = 0 := by
      intro h
      rw [h] at h10
      norm_num at h10
    simp [input_dict, truthyQ, hb, hb0]
  · intro a ha
    rw [Option.mem_def] at ha
    have h18 := (hedad a (Option.mem_def.mpr ha)).1
    have ha0 : ¬ a = 0 := by
      intro h
      rw [h] at h18
      norm_num at h18
    simp [input_dict, truthyZ, ha, ha0]

/-- Witness for C3 at the concrete end-to-end scenario input. -/
theorem imputation_resolves_fields_witness :
    (input_dict scenarioInput).grado_histologi = grado_resolved scenarioInput :=
  (imputation_resolves_fields scenarioInput
    (by intro b hb; simp [scenarioInput] at hb)
    (by intro a ha; simp [scenarioInput] at ha; subst ha; norm_num)).1.1

/-- Counterexample to C4 as stated: the end-to-end scenario supplies 3 of the
14 tracked fields (age, risk group, grade), so the recorded count of imputed
fields is 11, not 12. -/
theorem scenario_n_nan_eq_eleven_not_twelve :
    n_nan scenarioInput = 11 ∧ n_nan scenarioInput ≠ 12 := by
  constructor <;> decide

/-- Claim C4 (amended): for the end-to-end scenario input the resolved grade
is 1, imputed BMI is 29.4, imputed estrogen and progesterone receptors are
both 90.0, n_imputed is 11, and the confidence penalty is 11 * 0.05 = 0.55. -/
theorem scenario_end_to_end_values :
    grado_resolved scenarioInput = 1 ∧
    (input_dict scenarioInput).imc = 29.4 ∧
    (input_dict scenarioInput).recep_est_porcent = 90.0 ∧
    (input_dict scenarioInput).rece_de_Ppor = 90.0 ∧
    n_nan scenarioInput = 11 ∧
    nan_penalty (n_nan scenarioInput) = 0.55 := by
  refine ⟨rfl, rfl, ?_, ?_, by decide, ?_⟩
  · simp [input_dict, recep_est_resolved, scenarioInput, grado_resolved, dictGet,
      MEDIAN_RECEP_EST, List.lookup, GRADO_INV]
  · simp [input_dict, recep_prog_resolved, scenarioInput, grado_resolved, dictGet,
      MEDIAN_RECEP_PROG, List.lookup, GRADO_INV]
  · have h : n_nan scenarioInput = 11 := by decide
    rw [h]
    norm_num [nan_penalty]

/-! ## SHAP post-processing (lines 818-826) -/

/-- The sort key of `sort_values("SHAP Value", key=abs, ascending=False)`
(line 824): larger absolute value first. -/
def absDesc (a b : ℚ) : Prop := |b| ≤ |a|

/-- The sort key of the re-sort `ascending=True` (line 826): smaller absolute
value first. -/
def absAsc (a b : ℚ) : Prop := |a| ≤ |b|

instance : DecidableRel absDesc := fun a b => inferInstanceAs (Decidable (|b| ≤ |a|))

instance : DecidableRel absAsc := fun a b => inferInstanceAs (Decidable (|a| ≤ |b|))

instance : IsTotal ℚ absDesc := ⟨fun a b => le_total |b| |a|⟩

instance : IsTrans ℚ absDesc := ⟨fun _ _ _ h1 h2 => le_trans h2 h1⟩

instance : IsTotal ℚ absAsc := ⟨fun a b => le_total |a| |b|⟩

instance : IsTrans ℚ absAsc := ⟨fun _ _ _ h1 h2 => le_trans h1 h2⟩

/-- `max_abs = shap_df["SHAP Value"].abs().max()` (line 819): the maximum
absolute attribution over all computed features (seeded with 0, which is a
lower bound of every absolute value). -/
def max_abs (l : List ℚ) : ℚ := (l.map (fun v => |v|)).foldr max 0

/-- `threshold = max_abs * 0.01` (line 820). -/
def shap_threshold (l : List ℚ) : ℚ := max_abs l * 0.01

/-- `shap_df = shap_df[shap_df["SHAP Value"].abs() > threshold]` (line 821). -/
def shap_filtered (l : List ℚ) : List ℚ :=
  l.filter (fun v => decide (shap_threshold l < |v|))

/-- `shap_df.sort_values(..., key=abs, ascending=False).head(10)` (line 824). -/
def shap_top10 (l : List ℚ) : List ℚ :=
  (List.insertionSort absDesc (shap_filtered l)).take 10

/-- The full post-processing (lines 819-826): filter to strictly above 1% of
the maximum absolute attribution, keep the 10 largest by absolute value,
re-sort ascending by absolute value (line 826). -/
def shap_filter_sort (l : List ℚ) : List ℚ :=
  List.insertionSort absAsc (shap_top10 l)

/-- Claim C5: for every attribution vector whose maximum absolute value is
positive, the post-processing returns at most 10 features, every returned
value's absolute attribution strictly exceeds 1% of the maximum absolute
attribution over all computed features, the retained values dominate (in
absolute value) every value that passed the threshold but was not retained,
and the returned list is ordered ascending by absolute value. -/
theorem shap_postprocess_spec (l : List ℚ) (hpos : 0 < max_abs l) :
    (shap_filter_sort l).length ≤ 10 ∧
    (∀ v ∈ shap_filter_sort l, max_abs l * 0.01 < |v|) ∧
    (∀ v ∈ shap_filter_sort l, ∀ w ∈ l,
      max_abs l * 0.01 < |w| → w ∉ shap_filter_sort l → |w| ≤ |v|) ∧
    (shap_filter_sort l).Sorted absAsc := by
  have hperm : List.Perm (shap_filter_sort l) (shap_top10 l) :=
    List.perm_insertionSort absAsc (shap_top10 l)
  have hpermD : List.Perm (List.insertionSort absDesc (shap_filtered l)) (shap_filtered l) :=
    List.perm_insertionSort absDesc (shap_filtered l)
  refine ⟨?_, ?_, ?_, List.sorted_insertionSort absAsc (shap_top10 l)⟩
  · rw [hperm.length_eq, shap_top10, List.length_take]
    exact min_le_left _ _
  · intro v hv
    have hvT : v ∈ shap_top10 l := hperm.mem_iff.mp hv
    have hvD : v ∈ List.insertionSort absDesc (shap_filtered l) :=
      List.mem_of_mem_take hvT
    have hvF : v ∈ shap_filtered l := hpermD.mem_iff.mp hvD
    have := (List.mem_filter.mp hvF).2
    simpa [shap_threshold] using of_decide_eq_true this
  · intro v hv w hw hwthr hwnot
    have hvT : v ∈ shap_top10 l := hperm.mem_iff.mp hv
    have hwF : w ∈ shap_filtered l :=
      List.mem_filter.mpr ⟨hw, decide_eq_true (by simpa [shap_threshold] using hwthr)⟩
    have hwD : w ∈ List.insertionSort absDesc (shap_filtered l) :=
      hpermD.mem_iff.mpr hwF
    have hwnotT : w ∉ shap_top10 l := fun hwT => hwnot (hperm.mem_iff.mpr hwT)
    have hsorted : (List.insertionSort absDesc (shap_filtered l)).Sorted absDesc :=
      List.sorted_insertionSort absDesc (shap_filtered l)
    have hsplit :
        (List.insertionSort absDesc (shap_filtered l)).take 10 ++
          (List.insertionSort absDesc (shap_filtered l)).drop 10 =
          List.insertionSort absDesc (shap_filtered l) :=
      List.take_append_drop 10 _
    have hpw : ∀ x ∈ (List.insertionSort absDesc (shap_filtered l)).take 10,
        ∀ y ∈ (List.insertionSort absDesc (shap_filtered l)).drop 10, absDesc x y := by
      rw [← hsplit] at hsorted
      exact (List.pairwise_append.mp hsorted).2.2
    have hwdrop : w ∈ (List.insertionSort absDesc (shap_filtered l)).drop 10 := by
      rw [← hsplit] at hwD
      rcases List.mem_append.mp hwD with h | h
      · exact absurd h hwnotT
      · exact h
    exact hpw v hvT w hwdrop

/-- Witness for C5 on the concrete attribution vector [1, -2]. -/
theorem shap_postprocess_spec_witness :
    (shap_filter_sort [1, -2]).length ≤ 10 :=
  (shap_postprocess_spec [1, -2] (by decide)).1

/-! ## Partial-dependence grids (lines 909-951) -/

/-- `np.linspace(a, b, n)`: n points from a to b inclusive, step
(b - a)/(n - 1). -/
def linspace (a b : ℚ) (n : ℕ) : List ℚ :=
  (List.range n).map (fun i : ℕ => a + (b - a) * (i : ℚ) / ((n : ℚ) - 1))

/-- `feat_values.min()` (line 943), observed minimum of the background
column. -/
def colMin (col : List ℚ) : ℚ := col.min?.getD 0

/-- `feat_values.max()` (line 943), observed maximum of the background
column. -/
def colMax (col : List ℚ) : ℚ := col.max?.getD 0

/-- `grid_values = np.linspace(feat_values.min(), feat_values.max(), 50)`
(line 943). -/
def pdp_grid_continuous (col : List ℚ) : List ℚ :=
  linspace (colMin col) (colMax col) 50

/-- `X_temp = np.tile(X_mean, (1, 1)); X_temp[0, feat_idx] = val`
(lines 921-922 and 946-948): the evaluation row is the background
per-feature mean with only the swept feature replaced. -/
def pdpVec (mean : List ℚ) (featIdx : ℕ) (v : ℚ) : List ℚ :=
  mean.set featIdx v

/-- `categories = sorted(cat_map.keys())` (line 917). -/
def sorted_codes (codes : List ℤ) : List ℤ :=
  List.insertionSort (· ≤ ·) codes

/-- The categorical sweep (lines 916-925): one scale+predict evaluation per
enumerated code, in sorted code order, on the mean row with the swept
feature set to the code.  `predict` stands for
`model.predict_proba(scaler.transform(·))[0][1]`. -/
def pdp_categorical (predict : List ℚ → ℚ) (mean : List ℚ) (featIdx : ℕ)
    (codes : List ℤ) : List (ℤ × ℚ) :=
  (sorted_codes codes).map (fun c => (c, predict (pdpVec mean featIdx (c : ℚ))))

/-- The continuous sweep (lines 942-951): one evaluation per linspace grid
point. -/
def pdp_continuous (predict : List ℚ → ℚ) (mean : List ℚ) (featIdx : ℕ)
    (col : List ℚ) : List (ℚ × ℚ) :=
  (pdp_grid_continuous col).map (fun v => (v, predict (pdpVec mean featIdx v)))

/-- Index formula for the linspace grid. -/
theorem linspace_getD (a b : ℚ) (n i : ℕ) (h : i < n) :
    (linspace a b n).getD i 0 = a + (b - a) * i / ((n : ℚ) - 1) := by
  unfold linspace
  rw [List.getD_eq_getElem?_getD, List.getElem?_map, List.getElem?_range h]
  rfl

/-- Claim C6: the categorical sweep evaluates the model at exactly one grid
point per enumerated code, in sorted code order; the continuous sweep
evaluates exactly 50 equally spaced grid points whose first point is the
observed column minimum and whose last point is the observed column maximum;
and in both sweeps every evaluation row keeps all features other than the
swept one at the background per-feature mean. -/
theorem pdp_grid_spec (predict : List ℚ → ℚ) (mean : List ℚ) (featIdx : ℕ)
    (codes : List ℤ) (col : List ℚ) :
    (pdp_categorical predict mean featIdx codes).map Prod.fst = sorted_codes codes ∧
    (pdp_categorical predict mean featIdx codes).length = codes.length ∧
    (sorted_codes codes).Sorted (· ≤ ·) ∧
    List.Perm (sorted_codes codes) codes ∧
    (pdp_continuous predict mean featIdx col).length = 50 ∧
    (pdp_continuous predict mean featIdx col).map Prod.fst = pdp_grid_continuous col ∧
    (pdp_grid_continuous col).getD 0 0 = colMin col ∧
    (pdp_grid_continuous col).getD 49 0 = colMax col ∧
    (∀ i : ℕ, i < 49 →
      (pdp_grid_continuous col).getD (i + 1) 0 - (pdp_grid_continuous col).getD i 0 =
        (colMax col - colMin col) / 49) ∧
    (∀ v : ℚ, ∀ j : ℕ, j ≠ featIdx →
      (pdpVec mean featIdx v).getD j 0 = mean.getD j 0) := by
  refine ⟨?_, ?_, List.sorted_insertionSort _ codes, List.perm_insertionSort _ codes,
    ?_, ?_, ?_, ?_, ?_, ?_⟩
  · simp [pdp_categorical, List.map_map, Function.comp_def]
  · rw [pdp_categorical, List.length_map, sorted_codes,
      (List.perm_insertionSort _ codes).length_eq]
  · rw [pdp_continuous, List.length_map, pdp_grid_continuous, linspace,
      List.length_map, List.length_range]
  · simp [pdp_continuous, List.map_map, Function.comp_def]
  · rw [pdp_grid_continuous, linspace_getD _ _ 50 0 (by norm_num)]
    norm_num
  · rw [pdp_grid_continuous, linspace_getD _ _ 50 49 (by norm_num)]
    norm_num
  · intro i hi
    rw [pdp_grid_continuous, linspace_getD _ _ 50 (i + 1) (by omega),
      linspace_getD _ _ 50 i (by omega)]
    push_cast
    field_simp
    ring
  · intro v j hj
    rw [pdpVec, List.getD_eq_getElem?_getD, List.getD_eq_getElem?_getD,
      List.getElem?_set_ne (Ne.symm hj)]

/-- Witness for C6 (discharging the bounded-index hypothesis of the spacing
conjunct) at a concrete sweep: the first two grid points over the column
[3, 4] are (4 - 3)/49 apart. -/
theorem pdp_grid_spec_witness :
    (pdp_grid_continuous [3, 4]).getD 1 0 - (pdp_grid_continuous [3, 4]).getD 0 0 =
      (colMax [3, 4] - colMin [3, 4]) / 49 :=
  (pdp_grid_spec (fun _ => 0.5) [0, 0] 0 [2, 1] [3, 4]).2.2.2.2.2.2.2.2.1 0 (by norm_num)

/-! ## Similar-case retrieval (lines 983-989)

The source computes `distances = np.sqrt(np.sum((X_bg_scaled - input_vec)**2,
axis=1))`, sorts indices with `np.argsort(distances)` and keeps
`[idx for idx in sorted_idx if distances[idx] > 0.001][:2]`.  We embed the
squared distances: since every distance is nonnegative and the square root is
strictly monotone, `sqrt(s) > 0.001` holds iff `s > 0.001 ^ 2`, and sorting
by `sqrt` of the squared distances orders indices exactly as sorting by the
squared distances themselves. -/

/-- Squared Euclidean distance of one cohort row to the scaled query row. -/
def distSq (row query : List ℚ) : ℚ :=
  ((row.zip query).map (fun p => (p.1 - p.2) ^ 2)).sum

/-- The vector of squared distances of every cohort row to the query
(line 985, before the square root). -/
def distancesSq (cohort : List (List ℚ)) (query : List ℚ) : List ℚ :=
  cohort.map (fun r => distSq r query)

/-- Index comparison by distance value, the key of `np.argsort(distances)`
(line 988). -/
def distLe (d : List ℚ) (i j : ℕ) : Prop :=
  d.getD i 0 ≤ d.getD j 0

instance (d : List ℚ) : DecidableRel (distLe d) :=
  fun i j => inferInstanceAs (Decidable (d.getD i 0 ≤ d.getD j 0))

/-- `sorted_idx = np.argsort(distances)` (line 988): the row indices ordered
by non-decreasing distance. -/
def argsort (d : List ℚ) : List ℕ :=
  List.insertionSort (distLe d) (List.range d.length)

/-- `similar_idx = [idx for idx in sorted_idx if distances[idx] > 0.001][:2]`
(line 989), with the threshold squared to match the squared distances. -/
def similar_idx (cohort : List (List ℚ)) (query : List ℚ) : List ℕ :=
  ((argsort (distancesSq cohort query)).filter
    (fun i => decide ((0.001 : ℚ) ^ 2 < (distancesSq cohort query).getD i 0))).take 2

/-- Claim C7: similarity retrieval excludes near-duplicates of the query:
a cohort row whose Euclidean distance to the query is at most 0.001
(equivalently, whose squared distance is at most 0.001 ^ 2; in particular an
identical row, distance 0) never appears among the returned neighbors. -/
theorem near_duplicate_excluded (cohort : List (List ℚ)) (query : List ℚ) (i : ℕ)
    (h : (distancesSq cohort query).getD i 0 ≤ (0.001 : ℚ) ^ 2) :
    i ∉ similar_idx cohort query := by
  intro hmem
  have h1 : i ∈ (argsort (distancesSq cohort query)).filter
      (fun i => decide ((0.001 : ℚ) ^ 2 < (distancesSq cohort query).getD i 0)) :=
    List.mem_of_mem_take hmem
  have h2 := (List.mem_filter.mp h1).2
  exact absurd (of_decide_eq_true h2) (not_lt.mpr h)

/-- Witness for C7: a cohort containing a row identical to the query (row 0)
does not return that row. -/
theorem near_duplicate_excluded_witness :
    0 ∉ similar_idx [[0, 0], [1, 0]] [0, 0] :=
  near_duplicate_excluded [[0, 0], [1, 0]] [0, 0] 0
    (by norm_num [distancesSq, distSq])

/-! ## Session-state update on submission (lines 614-658) -/

/-- Outcome of the SHAP enrichment attempt (lines 636-653): the background
file may be missing (line 650-651) or the computation may raise
(lines 652-653); both are recovered locally. -/
inductive ShapOutcome
  | ok (vals : List ℚ)
  | missingBackground
  | failed
deriving DecidableEq

/-- What the try/except block stores in `st.session_state.shap_values`:
the computed values on success, `None` on a missing background file, `None`
on any exception. -/
def shap_result : ShapOutcome → Option (List ℚ)
  | .ok v => some v
  | .missingBackground => none
  | .failed => none

/-- The session-state slots written by a submission (lines 416-429 and
534-655). -/
structure SessionState where
  prediction_done : Bool
  prob : Option ℚ
  input_data : Option (List ℚ)
  n_nan_count : ℕ
  confidence_val : Option ℚ
  shap_values : Option (List ℚ)
deriving DecidableEq

/-- The ordered feature vector built from `input_dict` (line 608).  The
artifact `SELECTED_FEATURES` fixes the order of the same 14 columns; we use
the `input_dict` insertion order. -/
def feature_vector (s : PatientInput) : List ℚ :=
  [((input_dict s).grupo_de_riesgo_definitivo : ℚ),
   ((input_dict s).afectacion_linf : ℚ),
   ((input_dict s).estadiaje_pre_i : ℚ),
   ((input_dict s).Tratamiento_sistemico_realizad : ℚ),
   ((input_dict s).grado_histologi : ℚ),
   ((input_dict s).infiltracion_mi : ℚ),
   (input_dict s).imc,
   ((input_dict s).FIGO2023 : ℚ),
   (input_dict s).recep_est_porcent,
   (input_dict s).rece_de_Ppor,
   ((input_dict s).edad : ℚ),
   ((input_dict s).tto_1_quirugico : ℚ),
   ((input_dict s).histo_defin : ℚ),
   ((input_dict s).metasta_distan : ℚ)]

/-- One submission run (lines 514-655): the probability, the scaled input,
the imputation count and the confidence are stored (lines 615-632) before
the SHAP attempt; the SHAP attempt stores its degradable outcome; finally
`prediction_done` is set (line 655).  `scale` stands for `scaler.transform`
and `predict` for `model.predict_proba(...)[0][1]`, both frozen artifacts. -/
def run_submission (predict : List ℚ → ℚ) (scale : List ℚ → List ℚ)
    (s : PatientInput) (o : ShapOutcome) : SessionState :=
  let scaled := scale (feature_vector s)
  let p := predict scaled
  { prediction_done := true
    prob := some p
    input_data := some scaled
    n_nan_count := n_nan s
    confidence_val := some (confidence p (n_nan s))
    shap_values := shap_result o }

/-- The tab-2 risk tier display (lines 662-679) reads the stored probability
from the session state and re-derives the tier from it. -/
def displayed_tier (session : SessionState) : Option RiskTier :=
  session.prob.map risk_level

/-- Claim C9: if the attribution computation fails (missing background file
or an exception during the Shapley approximation), the attribution slot of
the result is `none`, while the primary probability is still computed and
stored, the risk tier is still derived from it, and the submission still
completes (`prediction_done` is set) — the failure is never propagated. -/
theorem shap_failure_degrades (predict : List ℚ → ℚ) (scale : List ℚ → List ℚ)
    (s : PatientInput) (o : ShapOutcome)
    (h : o = ShapOutcome.missingBackground ∨ o = ShapOutcome.failed) :
    (run_submission predict scale s o).shap_values = none ∧
    (run_submission predict scale s o).prob = some (predict (scale (feature_vector s))) ∧
    displayed_tier (run_submission predict scale s o) =
      some (risk_level (predict (scale (feature_vector s)))) ∧
    (run_submission predict scale s o).prediction_done = true := by
  rcases h with h | h <;>
    subst h <;>
    exact ⟨rfl, rfl, rfl, rfl⟩

/-- Witness for C9 with a concrete model, scaler, input and failure. -/
theorem shap_failure_degrades_witness :
    (run_submission (fun _ => 0.5) id scenarioInput ShapOutcome.failed).shap_values = none :=
  (shap_failure_degrades (fun _ => 0.5) id scenarioInput ShapOutcome.failed (Or.inr rfl)).1

/-! ## The two receptor reconstructions (lines 552-560 vs lines 1066-1067) -/

/-- Line 1066 of the similar-cases comparison table: the "current case"
estrogen receptor is reconstructed with Python truthiness
(`st.session_state.recep_est if st.session_state.recep_est else 90.0`),
so a supplied 0.0 falls back to 90.0. -/
def our_case_recep_est (s : PatientInput) : ℚ :=
  truthyQ 90.0 s.recep_est

/-- Line 1067: the "current case" progesterone receptor, same truthiness
pattern. -/
def our_case_recep_prog (s : PatientInput) : ℚ :=
  truthyQ 90.0 s.recep_prog

/-- A valid PatientInput supplying both receptor percentages as 0.0 (within
the 0-100 widget bounds). -/
def zeroReceptorInput : PatientInput where
  edad := none
  imc := none
  grupo_riesgo := none
  estadiaje_pre := none
  histo := none
  grado := none
  infiltracion := none
  figo := none
  metasta := none
  tto_quirurgico := none
  tto_sistemico := none
  afect_linf := none
  recep_est := some 0
  recep_prog := some 0

/-- Claim C10: for the valid input supplying estrogen receptor 0.0, the
prediction path keeps 0.0 (it tests presence with `is not None`) while the
similar-cases "current case" column reconstructs 90.0 (it tests presence by
truthiness); the same divergence holds for progesterone receptor 0.0. -/
theorem receptor_zero_truthiness_divergence :
    (input_dict zeroReceptorInput).recep_est_porcent = 0 ∧
    our_case_recep_est zeroReceptorInput = 90.0 ∧
    (input_dict zeroReceptorInput).recep_est_porcent ≠ our_case_recep_est zeroReceptorInput ∧
    (input_dict zeroReceptorInput).rece_de_Ppor = 0 ∧
    our_case_recep_prog zeroReceptorInput = 90.0 ∧
    (input_dict zeroReceptorInput).rece_de_Ppor ≠ our_case_recep_prog zeroReceptorInput := by
  refine ⟨rfl, ?_, ?_, rfl, ?_, ?_⟩
  · simp [our_case_recep_est, truthyQ, zeroReceptorInput]
  · norm_num [input_dict, recep_est_resolved, our_case_recep_est, truthyQ, zeroReceptorInput]
  · simp [our_case_recep_prog, truthyQ, zeroReceptorInput]
  · norm_num [input_dict, recep_prog_resolved, our_case_recep_prog, truthyQ, zeroReceptorInput]
